import Mathlib

/-!
Verification of the DOM traversal and node-creation layer
(`packages/svelte/src/internal/client/dom/operations.js`).

The live document tree is shallowly embedded as a `Doc`: a flat store of
node ids carrying a node type, character data, a parent pointer and an
ordered child list.  The hydration state (`hydrating` flag plus the
hydration cursor `hydrate_node`, owned by the collaborating hydration
module) is threaded explicitly through every traversal call as a state
record `S`.  JavaScript runtime errors (calling a native getter on
`null`, reading a property of `null`) are modelled with `Except String`.
-/

namespace SvelteDom

/-- Node kinds relevant to this layer (element, text, comment). -/
inductive NodeType where
  | element
  | text
  | comment
deriving DecidableEq

/-- `Node.TEXT_NODE`, imported from `#client/constants` in the source. -/
def TEXT_NODE : Nat := 3

/-- The standard DOM `nodeType` codes of the three node kinds. -/
def nodeTypeCode : NodeType → Nat
  | .element => 1
  | .text => 3
  | .comment => 8

/-- The live document tree: a flat store of node ids.  `nextId` is the
next fresh id handed out by node creation; `ty`, `dat`, `par`, `kids`
give each id its node type, its character data, its parent (none when
detached) and its ordered child list. -/
structure Doc where
  nextId : Nat
  ty : Nat → NodeType
  dat : Nat → String
  par : Nat → Option Nat
  kids : Nat → List Nat

/-- The state visible to the traversal layer: the document plus the
hydration flag and hydration cursor (both owned by `hydration.js`,
which is outside this file's source; per the spec they are plain
accessors over mutable module state). -/
structure S where
  doc : Doc
  hydrating : Bool
  hydrate_node : Option Nat

/-- `set_hydrate_node` from `hydration.js`: a plain cursor write. -/
def set_hydrate_node (n : Option Nat) (s : S) : S :=
  { s with hydrate_node := n }

/-- `get_first_child(node)` — the cached native `firstChild` getter. -/
def get_first_child (d : Doc) (n : Nat) : Option Nat :=
  (d.kids n).head?

/-- The element after the first occurrence of `n` in a child list. -/
def nextAfter (n : Nat) : List Nat → Option Nat
  | [] => none
  | x :: xs => if x = n then xs.head? else nextAfter n xs

/-- `get_next_sibling(node)` — the cached native `nextSibling` getter:
the entry after `n` in `n`'s parent's child list, `none` for a
detached node or a last child. -/
def get_next_sibling (d : Doc) (n : Nat) : Option Nat :=
  match d.par n with
  | none => none
  | some p => nextAfter n (d.kids p)

/-- `document.createTextNode(value)`: allocates a fresh, detached text
node whose data is `value` and returns it with the grown document. -/
def create_text (d : Doc) (value : String) : Nat × Doc :=
  (d.nextId,
    { nextId := d.nextId + 1
      ty := fun n => if n = d.nextId then .text else d.ty n
      dat := fun n => if n = d.nextId then value else d.dat n
      par := fun n => if n = d.nextId then none else d.par n
      kids := d.kids })

/-- DOM node adoption: removes `t` from every child list and clears its
parent pointer, as the DOM does before re-inserting a node elsewhere. -/
def detach (t : Nat) (d : Doc) : Doc :=
  { d with
    kids := fun q => (d.kids q).erase t
    par := fun n => if n = t then none else d.par n }

/-- `parent.appendChild(t)`: moves `t` to the end of `parent`'s child
list (detaching it from any previous position first). -/
def appendChild (p t : Nat) (d : Doc) : Doc :=
  let d0 := detach t d
  { d0 with
    kids := fun q => if q = p then d0.kids q ++ [t] else d0.kids q
    par := fun n => if n = t then some p else d0.par n }

/-- Inserts `t` immediately before the first occurrence of `ref`. -/
def insertBeforeList (ref t : Nat) : List Nat → List Nat
  | [] => []
  | x :: xs => if x = ref then t :: x :: xs else x :: insertBeforeList ref t xs

/-- Inserts `t` immediately after the first occurrence of `ref`. -/
def insertAfterList (ref t : Nat) : List Nat → List Nat
  | [] => []
  | x :: xs => if x = ref then x :: t :: xs else x :: insertAfterList ref t xs

/-- `ref.before(t)`: per the DOM spec, a no-op when `ref` has no
parent; otherwise moves `t` immediately before `ref` in the child
list of `ref`'s parent. -/
def before (ref t : Nat) (d : Doc) : Doc :=
  match d.par ref with
  | none => d
  | some p =>
    let d0 := detach t d
    { d0 with
      kids := fun q => if q = p then insertBeforeList ref t (d0.kids q) else d0.kids q
      par := fun n => if n = t then some p else d0.par n }

/-- `ref.after(t)`: per the DOM spec, a no-op when `ref` has no parent;
otherwise moves `t` immediately after `ref`. -/
def after (ref t : Nat) (d : Doc) : Doc :=
  match d.par ref with
  | none => d
  | some p =>
    let d0 := detach t d
    { d0 with
      kids := fun q => if q = p then insertAfterList ref t (d0.kids q) else d0.kids q
      par := fun n => if n = t then some p else d0.par n }

/-- The `nodeType` of an optional node, as JavaScript's optional chain
`node?.nodeType` sees it (`none` plays the role of `undefined`). -/
def nodeType? (d : Doc) : Option Nat → Option Nat
  | none => none
  | some n => some (nodeTypeCode (d.ty n))

/-- `child(node, is_text)` from `operations.js`.  Non-hydrating: the
live first child of `node`.  Hydrating: reads the first child of the
cursor; appends a fresh empty text node when there is none; when
`is_text` holds and the child is not a text node, splices a fresh
empty text node in front of it; advances the cursor to the returned
node.  Calling the native first-child getter on a `null` cursor
throws, modelled as `Except.error`. -/
def child (node : Nat) (is_text : Bool) (s : S) : Except String (Option Nat × S) :=
  if !s.hydrating then
    .ok (get_first_child s.doc node, s)
  else
    match s.hydrate_node with
    | none => .error "TypeError: Illegal invocation"
    | some hn =>
      match get_first_child s.doc hn with
      | none =>
        let td := create_text s.doc ""
        let d := appendChild hn td.1 td.2
        .ok (some td.1, set_hydrate_node (some td.1) { s with doc := d })
      | some c =>
        if is_text ∧ nodeTypeCode (s.doc.ty c) ≠ TEXT_NODE then
          let td := create_text s.doc ""
          let d := before c td.1 td.2
          .ok (some td.1, set_hydrate_node (some td.1) { s with doc := d })
        else
          .ok (some c, set_hydrate_node (some c) s)

/-- `first_child(fragment, is_text)` from `operations.js`.
Non-hydrating: the live first child of the fragment, except that a
leading comment node with empty data (a fragment placeholder left by
serialization) is skipped in favour of its next sibling.  Hydrating:
when `is_text` holds and the cursor is not on a text node (also when
the cursor is `null`), a fresh empty text node is created, inserted
before the cursor when one exists (`hydrate_node?.before(text)` is an
optional chain, so a `null` cursor skips the insertion), and the
cursor moves to it; otherwise the cursor's node is returned as-is. -/
def first_child (fragment : Nat) (is_text : Bool) (s : S) : Option Nat × S :=
  if !s.hydrating then
    match get_first_child s.doc fragment with
    | none => (none, s)
    | some f =>
      if s.doc.ty f = .comment ∧ s.doc.dat f = "" then (get_next_sibling s.doc f, s)
      else (some f, s)
  else
    if is_text ∧ nodeType? s.doc s.hydrate_node ≠ some TEXT_NODE then
      let td := create_text s.doc ""
      let d :=
        match s.hydrate_node with
        | none => td.2
        | some hn => before hn td.1 td.2
      (some td.1, set_hydrate_node (some td.1) { s with doc := d })
    else
      (s.hydrate_node, s)

/-- The `while (count--)` hop loop of `sibling`: starting at `cur`,
takes `count` next-sibling hops, returning the pair of the last
position entered (`last_sibling`) and the landing position
(`next_sibling`).  The native getter throws when invoked on `null`,
modelled as `Except.error`. -/
def walkN (d : Doc) : Nat → Option Nat → Option Nat → Except String (Option Nat × Option Nat)
  | 0, last, cur => .ok (last, cur)
  | k + 1, _, cur =>
    match cur with
    | none => .error "TypeError: Illegal invocation"
    | some n => walkN d k (some n) (get_next_sibling d n)

/-- `sibling(node, count, is_text)` from `operations.js` (at call
sites `count` defaults to `1` and `is_text` to `false`).  The hop loop
starts from the hydration cursor when hydrating, from `node`
otherwise.  Non-hydrating: returns the landing position untouched.
Hydrating: when `is_text` holds and the landing position is not a text
node, a fresh empty text node is spliced in — after the last sibling
entered when the landing position is `null`, before the landing node
otherwise — and becomes the cursor; otherwise the cursor moves to the
landing position. -/
def sibling (node : Nat) (count : Nat) (is_text : Bool) (s : S) : Except String (Option Nat × S) :=
  match walkN s.doc count none (if s.hydrating then s.hydrate_node else some node) with
  | .error e => .error e
  | .ok (last_sibling, next_sibling) =>
    if !s.hydrating then
      .ok (next_sibling, s)
    else if is_text ∧ nodeType? s.doc next_sibling ≠ some TEXT_NODE then
      let td := create_text s.doc ""
      let d :=
        match next_sibling with
        | none =>
          match last_sibling with
          | none => td.2
          | some l => after l td.1 td.2
        | some ns => before ns td.1 td.2
      .ok (some td.1, set_hydrate_node (some td.1) { s with doc := d })
    else
      .ok (next_sibling, set_hydrate_node next_sibling s)

/-- Modelled from the spec (claim C4 wording, spec §4.4
advance-sibling, hydrating case): advances `count` hops starting from
the hydration cursor's current node — the caller's node argument does
not appear at all — tracking the last sibling reached; then, if the
expectation is for text and the landing node is not a text node,
creates an empty text node, inserts it after the last sibling reached
when the landing position is null and before the landing node
otherwise, sets the cursor to the new node and returns it; otherwise
sets the cursor to the landing node and returns it. -/
def advance_sibling_spec (count : Nat) (is_text : Bool) (s : S) : Except String (Option Nat × S) :=
  match walkN s.doc count none s.hydrate_node with
  | .error e => .error e
  | .ok (last, landing) =>
    if is_text ∧ nodeType? s.doc landing ≠ some TEXT_NODE then
      let td := create_text s.doc ""
      let d :=
        match landing with
        | none =>
          match last with
          | none => td.2
          | some l => after l td.1 td.2
        | some ns => before ns td.1 td.2
      .ok (some td.1, set_hydrate_node (some td.1) { s with doc := d })
    else
      .ok (landing, set_hydrate_node landing s)

/-- A reactive effect as this layer sees it: just its flag bitset. -/
structure Effect where
  f : Nat

/-- Modelled from the spec: `EFFECT_RAN`, the single "has this effect
already run once" bit, imported from `#client/constants` which is not
part of this file's source; a fixed one-bit mask whose exact position
is immaterial to every property below. -/
def EFFECT_RAN : Nat := 2 ^ 15

/-- `should_defer_append()` from `operations.js`: `false` when the
async-mode flag is off; otherwise reads `active_effect.f` — a
`TypeError` when there is no active effect, modelled as
`Except.error` — and tests the `EFFECT_RAN` bit. -/
def should_defer_append (async_mode_flag : Bool) (active_effect : Option Effect) :
    Except String Bool :=
  if !async_mode_flag then .ok false
  else
    match active_effect with
    | none => .error "TypeError: Cannot read properties of null"
    | some e => .ok (decide ((e.f &&& EFFECT_RAN) ≠ 0))

/-- An element's attribute stores: plain attributes keyed by name, and
namespaced attributes keyed by namespace URI and qualified name. -/
structure ElemAttrs where
  attrs : List (String × String)
  attrsNS : List ((String × String) × String)

/-- `element.setAttribute(key, value)`: replaces the first binding of
`key`, appending a new one when absent. -/
def setAttrList (key value : String) : List (String × String) → List (String × String)
  | [] => [(key, value)]
  | (k, v) :: rest =>
    if k = key then (k, value) :: rest else (k, v) :: setAttrList key value rest

/-- `element.setAttributeNS(ns, key, value)` on the namespaced store. -/
def setAttrNSList (ns key value : String) :
    List ((String × String) × String) → List ((String × String) × String)
  | [] => [((ns, key), value)]
  | (kk, v) :: rest =>
    if kk = (ns, key) then (kk, value) :: rest else (kk, v) :: setAttrNSList ns key value rest

/-- `element.getAttribute(key)`. -/
def getAttribute (key : String) (el : ElemAttrs) : Option String :=
  match el.attrs.find? (fun kv => kv.1 = key) with
  | none => none
  | some kv => some kv.2

/-- `element.getAttributeNS(ns, key)` (keyed here by qualified name). -/
def getAttributeNS (ns key : String) (el : ElemAttrs) : Option String :=
  match el.attrsNS.find? (fun kv => kv.1 = (ns, key)) with
  | none => none
  | some kv => some kv.2

/-- The XLink namespace URI hard-coded in `set_attribute`. -/
def xlinkNamespace : String := "http://www.w3.org/1999/xlink"

/-- JavaScript's `key.startsWith(pre)`, computed over the strings'
character sequences (Lean's byte-position `String.startsWith` agrees
with this but is opaque to kernel reduction). -/
def stringBeginsWith (pre key : String) : Bool :=
  pre.data.isPrefixOf key.data

/-- `set_attribute(element, key, value = '')` from `operations.js`:
keys starting with `xlink:` go through `setAttributeNS` with the XLink
namespace URI; every other key goes through plain `setAttribute`. -/
def set_attribute (el : ElemAttrs) (key : String) (value : String := "") : ElemAttrs :=
  if stringBeginsWith "xlink:" key then
    { el with attrsNS := setAttrNSList xlinkNamespace key value el.attrsNS }
  else
    { el with attrs := setAttrList key value el.attrs }

/-- The host prototype state that `init_operations` mutates: whether
the element/text prototypes are extensible (`Object.isExtensible`),
and the cache slots so far reserved on each.  `array_warnings` records
the DEV-only collection-mutation warning hook installation. -/
structure Protos where
  element_extensible : Bool
  text_extensible : Bool
  element_slots : List String
  text_slots : List String
  array_warnings : Bool

/-- The prototype-mutation portion of `init_operations` from
`operations.js` (the idempotence sentinel on `$window`, the
window/document/user-agent caching and the two getter lookups are
environment bindings with no bearing on the slot reservations; the
`$window` sentinel ensures this body runs at most once, so the
prototypes start without any of these slots).  The five element cache
slots are reserved only when the element prototype is extensible; the
`__t` text slot only when the text prototype is; the DEV-only
`__svelte_meta` assignment has no extensibility guard, and the file is
an ES module, hence strict mode: assigning a new property to a
non-extensible prototype throws a `TypeError` (modelled as
`Except.error`), in which case the subsequent array-prototype warning
hook never installs either. -/
def init_operations (dev : Bool) (p : Protos) : Except String Protos :=
  let p1 :=
    if p.element_extensible then
      { p with element_slots :=
          p.element_slots ++ ["__click", "__className", "__attributes", "__style", "__e"] }
    else p
  let p2 :=
    if p1.text_extensible then { p1 with text_slots := p1.text_slots ++ ["__t"] }
    else p1
  if dev then
    if p2.element_extensible then
      .ok { p2 with element_slots := p2.element_slots ++ ["__svelte_meta"],
                    array_warnings := true }
    else
      .error "TypeError: Cannot add property __svelte_meta, object is not extensible"
  else .ok p2

/-! ## Theorems -/

/-- C3: For every call made while not hydrating, the three traversal
operations `child`, `first_child` and `sibling` are pure read-only
traversals: each returns its input state unchanged (no node created,
inserted or moved, hydration cursor not written), and the node each
returns is the same whatever the hydration cursor holds (cursor not
read). -/
theorem nonhydrating_traversals_pure (d : Doc) (h₁ h₂ : Option Nat) (is_text : Bool)
    (n frag node count : Nat) :
    child n is_text ⟨d, false, h₁⟩ = .ok (get_first_child d n, ⟨d, false, h₁⟩) ∧
    first_child frag is_text ⟨d, false, h₁⟩ =
      ((first_child frag is_text ⟨d, false, h₂⟩).1, ⟨d, false, h₁⟩) ∧
    sibling node count is_text ⟨d, false, h₁⟩ =
      Except.map (fun r => (r.1, (⟨d, false, h₁⟩ : S)))
        (sibling node count is_text ⟨d, false, h₂⟩) := by
  refine ⟨rfl, ?_, ?_⟩
  · simp only [first_child]
    cases hf : get_first_child d frag
    · rfl
    · simp only [Bool.not_false, if_true]
      split <;> rfl
  · cases hw : walkN d count none (some node) with
    | error e => simp [sibling, hw, Except.map]
    | ok pr => simp [sibling, hw, Except.map, set_hydrate_node]

/-- C6: `should_defer_append` returns `false` whenever async mode is
disabled, regardless of the active effect; and (given an active
effect) it returns `true` iff async mode is enabled and the effect's
`EFFECT_RAN` bit is set. -/
theorem should_defer_append_async_ran (flag : Bool) (ae : Option Effect) (e : Effect) :
    should_defer_append false ae = .ok false ∧
    (should_defer_append flag (some e) = .ok true ↔
      (flag = true ∧ e.f &&& EFFECT_RAN ≠ 0)) := by
  constructor
  · rfl
  · cases flag <;> simp [should_defer_append]

/-- C6 witness: with async mode on and an active effect whose flag set
is exactly the `EFFECT_RAN` bit, the append is deferred. -/
theorem should_defer_append_async_ran_witness :
    should_defer_append true (some ⟨32768⟩) = .ok true :=
  (should_defer_append_async_ran true (some ⟨32768⟩) ⟨32768⟩).2.mpr ⟨rfl, by decide⟩

/-- C10: with async mode disabled `should_defer_append` never looks at
the active effect (the result is the same for any effect value, and is
`ok false` even with no effect at all); with async mode enabled it
unconditionally dereferences the active effect — a `TypeError` when
there is none — and never errors when one exists. -/
theorem should_defer_append_effect_access (ae ae2 : Option Effect) (e : Effect) :
    should_defer_append false ae = should_defer_append false ae2 ∧
    should_defer_append false none = .ok false ∧
    should_defer_append true none = .error "TypeError: Cannot read properties of null" ∧
    ∃ b, should_defer_append true (some e) = .ok b :=
  ⟨rfl, rfl, rfl, ⟨_, rfl⟩⟩

/-- Looking up a key after `setAttribute` of that key yields the value
just set. -/
theorem getAttribute_setAttrList (key value : String) (l : List (String × String))
    (ns : List ((String × String) × String)) :
    getAttribute key ⟨setAttrList key value l, ns⟩ = some value := by
  induction l with
  | nil => simp [getAttribute, setAttrList]
  | cons kv rest ih =>
    obtain ⟨k, v⟩ := kv
    by_cases hk : k = key
    · subst hk
      simp [getAttribute, setAttrList]
    · simpa [getAttribute, setAttrList, hk] using ih

/-- Looking up a namespaced key after `setAttributeNS` of that key
yields the value just set. -/
theorem getAttributeNS_setAttrNSList (ns key value : String)
    (l : List ((String × String) × String)) (pl : List (String × String)) :
    getAttributeNS ns key ⟨pl, setAttrNSList ns key value l⟩ = some value := by
  induction l with
  | nil => simp [getAttributeNS, setAttrNSList]
  | cons kv rest ih =>
    obtain ⟨kk, v⟩ := kv
    by_cases hk : kk = (ns, key)
    · subst hk
      simp [getAttributeNS, setAttrNSList]
    · simpa [getAttributeNS, setAttrNSList, hk] using ih

/-- C7: `set_attribute` routes every key beginning with `xlink:`
through the XLink namespace URI `http://www.w3.org/1999/xlink`,
leaving the plain attributes untouched; every other key is set as a
plain attribute, leaving the namespaced store untouched; and the value
defaults to the empty string when omitted. -/
theorem set_attribute_xlink_routing (el : ElemAttrs) (key value : String) :
    (stringBeginsWith "xlink:" key = true →
      (set_attribute el key value).attrs = el.attrs ∧
      getAttributeNS xlinkNamespace key (set_attribute el key value) = some value) ∧
    (stringBeginsWith "xlink:" key = false →
      (set_attribute el key value).attrsNS = el.attrsNS ∧
      getAttribute key (set_attribute el key value) = some value) ∧
    set_attribute el key = set_attribute el key "" := by
  refine ⟨fun hx => ?_, fun hx => ?_, rfl⟩
  · rw [set_attribute, if_pos hx]
    exact ⟨rfl, getAttributeNS_setAttrNSList _ _ _ _ _⟩
  · rw [set_attribute, if_neg (by simp [hx])]
    exact ⟨rfl, getAttribute_setAttrList _ _ _ _⟩

/-- C7 witness: `xlink:href` lands in the XLink namespace and `href`
lands in the plain attribute store, both with the value just set. -/
theorem set_attribute_xlink_routing_witness :
    (set_attribute ⟨[], []⟩ "xlink:href" "#id").attrs = [] ∧
    getAttributeNS xlinkNamespace "xlink:href" (set_attribute ⟨[], []⟩ "xlink:href" "#id") =
      some "#id" ∧
    getAttribute "href" (set_attribute ⟨[], []⟩ "href" "#id") = some "#id" :=
  ⟨((set_attribute_xlink_routing ⟨[], []⟩ "xlink:href" "#id").1 (by decide)).1,
   ((set_attribute_xlink_routing ⟨[], []⟩ "xlink:href" "#id").1 (by decide)).2,
   ((set_attribute_xlink_routing ⟨[], []⟩ "href" "#id").2.1 (by decide)).2⟩

/-- C8 counterexample: with a non-extensible element prototype, a
diagnostics build of `init_operations` does not silently skip the
`__svelte_meta` reservation — the unguarded strict-mode assignment
throws a `TypeError`, refuting the claim that every reservation, the
diagnostics-build metadata slot included, is guarded by the
extensibility check and silently skipped. -/
theorem init_operations_dev_meta_unguarded :
    init_operations true
        { element_extensible := false, text_extensible := false,
          element_slots := [], text_slots := [], array_warnings := false } =
      .error "TypeError: Cannot add property __svelte_meta, object is not extensible" :=
  rfl

/-- C8 (amended): every non-diagnostics cache-slot reservation of
`init_operations` is guarded by an extensibility check and silently
skipped when the host forbids extending the corresponding prototype
(the call still succeeds, with that prototype's slots unchanged); the
diagnostics-build `__svelte_meta` assignment, however, has no
extensibility guard: on a non-extensible element prototype a
diagnostics build throws a `TypeError` instead of silently skipping,
and on an extensible one it installs the slot. -/
theorem init_operations_guard_amended (p : Protos) :
    (∃ q, init_operations false p = .ok q ∧
      (p.element_extensible = false → q.element_slots = p.element_slots) ∧
      (p.text_extensible = false → q.text_slots = p.text_slots)) ∧
    (p.element_extensible = false →
      init_operations true p =
        .error "TypeError: Cannot add property __svelte_meta, object is not extensible") ∧
    (p.element_extensible = true →
      ∃ q0 q1, init_operations false p = .ok q0 ∧ init_operations true p = .ok q1 ∧
        q1.element_slots = q0.element_slots ++ ["__svelte_meta"]) := by
  by_cases he : p.element_extensible <;> by_cases ht : p.text_extensible <;>
    simp [init_operations, he, ht]

/-- C8 witness: with a non-extensible element prototype a diagnostics
build throws; with an extensible one the diagnostics build reserves
exactly one more element slot, `__svelte_meta`, than a non-diagnostics
build. -/
theorem init_operations_guard_amended_witness :
    init_operations true
        { element_extensible := false, text_extensible := false,
          element_slots := [], text_slots := [], array_warnings := false } =
      .error "TypeError: Cannot add property __svelte_meta, object is not extensible" ∧
    ∃ q0 q1,
      init_operations false
          { element_extensible := true, text_extensible := false,
            element_slots := [], text_slots := [], array_warnings := false } = .ok q0 ∧
      init_operations true
          { element_extensible := true, text_extensible := false,
            element_slots := [], text_slots := [], array_warnings := false } = .ok q1 ∧
      q1.element_slots = q0.element_slots ++ ["__svelte_meta"] :=
  ⟨(init_operations_guard_amended
      { element_extensible := false, text_extensible := false,
        element_slots := [], text_slots := [], array_warnings := false }).2.1 rfl,
   (init_operations_guard_amended
      { element_extensible := true, text_extensible := false,
        element_slots := [], text_slots := [], array_warnings := false }).2.2 rfl⟩

/-- C9: in hydration mode with a `null` cursor (live tree exhausted)
and a text expectation, `first_child` creates a fresh empty text node,
sets the cursor to it and returns it without throwing (the function is
total here), but the node stays detached: the optional-chained
`before` is skipped, so no child list changes (`kids` is untouched)
and the new node has no parent. -/
theorem first_child_null_cursor_detached (d : Doc) (frag : Nat) :
    ∃ s2, first_child frag true ⟨d, true, none⟩ = (some d.nextId, s2) ∧
      s2.hydrate_node = some d.nextId ∧
      s2.doc.ty d.nextId = .text ∧
      s2.doc.dat d.nextId = "" ∧
      s2.doc.par d.nextId = none ∧
      s2.doc.kids = d.kids := by
  refine ⟨_, rfl, rfl, ?_, ?_, ?_, rfl⟩ <;>
    simp [first_child, create_text, set_hydrate_node]

/-- C1: in hydration mode, on an element whose only child is a
non-text comment node, `child` with a text expectation creates a fresh
empty text node, inserts it immediately before the comment (the
element's children become exactly the new node followed by the
comment), leaves the comment in the tree as the new node's next
sibling, sets the hydration cursor to the new node and returns it. -/
theorem child_repairs_nontext_only_child (d : Doc) (p c n : Nat)
    (helem : d.ty p = .element)
    (honly : d.kids p = [c])
    (hpar : d.par c = some p)
    (hcomment : d.ty c = .comment)
    (hfresh : c ≠ d.nextId) :
    ∃ s2, child n true ⟨d, true, some p⟩ = .ok (some d.nextId, s2) ∧
      s2.hydrate_node = some d.nextId ∧
      s2.doc.ty d.nextId = .text ∧
      s2.doc.dat d.nextId = "" ∧
      s2.doc.kids p = [d.nextId, c] ∧
      get_next_sibling s2.doc d.nextId = some c ∧
      s2.doc.ty c = .comment := by
  have hfc : get_first_child d p = some c := by simp [get_first_child, honly]
  have hkids : (before c d.nextId (create_text d "").2).kids p = [d.nextId, c] := by
    simp [before, create_text, detach, hfresh, hpar, honly,
      List.erase_cons, insertBeforeList, (by omega : ¬ c = d.nextId)]
  refine ⟨set_hydrate_node (some d.nextId)
      { doc := before c d.nextId (create_text d "").2, hydrating := true,
        hydrate_node := some p }, ?_, rfl, ?_, ?_, ?_, ?_, ?_⟩
  · simp only [child]
    rw [hfc]
    simp [hcomment, nodeTypeCode, TEXT_NODE, create_text]
  · simp [before, create_text, detach, set_hydrate_node, hfresh, hpar]
  · simp [before, create_text, detach, set_hydrate_node, hfresh, hpar]
  · exact hkids
  · simp only [get_next_sibling, set_hydrate_node]
    have hp2 : (before c d.nextId (create_text d "").2).par d.nextId = some p := by
      simp [before, create_text, detach, hfresh, hpar]
    rw [hp2]
    show nextAfter d.nextId ((before c d.nextId (create_text d "").2).kids p) = some c
    rw [hkids]
    simp [nextAfter]
  · simp [before, create_text, detach, set_hydrate_node, hfresh, hpar, hcomment]

/-- Example document for the C1 scenario: element `0` whose only
child is the comment node `1`; the next fresh id is `5`. -/
def exDocOnlyComment : Doc :=
  { nextId := 5
    ty := fun m => if m = 1 then .comment else .element
    dat := fun _ => ""
    par := fun m => if m = 1 then some 0 else none
    kids := fun m => if m = 0 then [1] else [] }

/-- C1 witness: the repair on the concrete one-comment-child tree. -/
theorem child_repairs_nontext_only_child_witness :
    ∃ s2, child 7 true ⟨exDocOnlyComment, true, some 0⟩ = .ok (some 5, s2) ∧
      s2.hydrate_node = some 5 ∧
      s2.doc.ty 5 = .text ∧
      s2.doc.dat 5 = "" ∧
      s2.doc.kids 0 = [5, 1] ∧
      get_next_sibling s2.doc 5 = some 1 ∧
      s2.doc.ty 1 = .comment :=
  child_repairs_nontext_only_child exDocOnlyComment 0 1 7
    (by decide) (by decide) (by decide) (by decide) (by decide)

/-- C2: in hydration mode, on an element with no children at all,
`child` with a text expectation appends exactly one fresh empty text
node as the element's only child (one allocation: the id counter
advances by one), sets the hydration cursor to it and returns it. -/
theorem child_appends_text_when_no_children (d : Doc) (p n : Nat)
    (helem : d.ty p = .element)
    (hempty : d.kids p = []) :
    ∃ s2, child n true ⟨d, true, some p⟩ = .ok (some d.nextId, s2) ∧
      s2.hydrate_node = some d.nextId ∧
      s2.doc.ty d.nextId = .text ∧
      s2.doc.dat d.nextId = "" ∧
      s2.doc.kids p = [d.nextId] ∧
      s2.doc.par d.nextId = some p ∧
      s2.doc.nextId = d.nextId + 1 := by
  have hfc : get_first_child d p = none := by simp [get_first_child, hempty]
  refine ⟨set_hydrate_node (some d.nextId)
      { doc := appendChild p d.nextId (create_text d "").2, hydrating := true,
        hydrate_node := some p }, ?_, rfl, ?_, ?_, ?_, ?_, ?_⟩
  · simp only [child]
    rw [hfc]
    rfl
  · simp [appendChild, create_text, detach, set_hydrate_node]
  · simp [appendChild, create_text, detach, set_hydrate_node]
  · simp [appendChild, create_text, detach, set_hydrate_node, hempty]
  · simp [appendChild, create_text, detach, set_hydrate_node]
  · simp [appendChild, create_text, detach, set_hydrate_node]

/-- Example document for the C2 scenario: a childless tree; the next
fresh id is `3`. -/
def exDocChildless : Doc :=
  { nextId := 3
    ty := fun _ => .element
    dat := fun _ => ""
    par := fun _ => none
    kids := fun _ => [] }

/-- C2 witness: the append on the concrete childless element. -/
theorem child_appends_text_when_no_children_witness :
    ∃ s2, child 9 true ⟨exDocChildless, true, some 0⟩ = .ok (some 3, s2) ∧
      s2.hydrate_node = some 3 ∧
      s2.doc.ty 3 = .text ∧
      s2.doc.dat 3 = "" ∧
      s2.doc.kids 0 = [3] ∧
      s2.doc.par 3 = some 0 ∧
      s2.doc.nextId = 4 :=
  child_appends_text_when_no_children exDocChildless 0 9 (by decide) (by decide)

/-- C4: in hydration mode `sibling` coincides, for every value of its
`node` parameter, with the spec-side `advance_sibling_spec`, which
starts its `count` hops from the hydration cursor's current node and
never consults `node`: after advancing, if the expectation is for text
and the landing node is not a text node it splices in a fresh empty
text node (after the last sibling reached when the landing position is
`null`, before the landing node otherwise), points the cursor at it
and returns it; otherwise it points the cursor at the landing node and
returns it.  In particular the result is identical for any two values
of `node`. -/
theorem sibling_hydrating_from_cursor (s : S) (n₁ n₂ count : Nat) (is_text : Bool)
    (hh : s.hydrating = true) :
    sibling n₁ count is_text s = advance_sibling_spec count is_text s ∧
    sibling n₁ count is_text s = sibling n₂ count is_text s := by
  have key : ∀ n, sibling n count is_text s = advance_sibling_spec count is_text s := by
    intro n
    simp only [sibling, advance_sibling_spec, hh, eq_self_iff_true, if_true,
      Bool.not_true, Bool.false_eq_true, if_false]
  exact ⟨key n₁, (key n₁).trans (key n₂).symm⟩

/-- C4 witness: on the concrete one-comment-child tree with the cursor
on the comment, `sibling` agrees with the spec-side advance and is
insensitive to its `node` argument. -/
theorem sibling_hydrating_from_cursor_witness :
    sibling 3 1 false ⟨exDocOnlyComment, true, some 1⟩ =
      advance_sibling_spec 1 false ⟨exDocOnlyComment, true, some 1⟩ ∧
    sibling 3 1 false ⟨exDocOnlyComment, true, some 1⟩ =
      sibling 9 1 false ⟨exDocOnlyComment, true, some 1⟩ :=
  sibling_hydrating_from_cursor ⟨exDocOnlyComment, true, some 1⟩ 3 9 1 false rfl

/-- C5: in non-hydrating mode, when a fragment's first live child is a
comment node with empty data, `first_child` returns that comment's
next sibling (the head of the remaining children) rather than the
comment; when the first child is any other node, it returns that first
child. -/
theorem first_child_fragment_placeholder_skip (d : Doc) (h : Option Nat) (frag f : Nat)
    (rest : List Nat) (is_text : Bool)
    (hkids : d.kids frag = f :: rest)
    (hpar : d.par f = some frag) :
    ((d.ty f = .comment ∧ d.dat f = "") →
      (first_child frag is_text ⟨d, false, h⟩).1 = rest.head?) ∧
    (¬ (d.ty f = .comment ∧ d.dat f = "") →
      (first_child frag is_text ⟨d, false, h⟩).1 = some f) := by
  have hfc : get_first_child d frag = some f := by simp [get_first_child, hkids]
  constructor
  · rintro ⟨hc, hd⟩
    simp only [first_child]
    rw [hfc]
    simp [hc, hd, get_next_sibling, hpar, hkids, nextAfter]
  · intro hne
    simp only [first_child]
    rw [hfc]
    simp [hne]

/-- Example document for the C5 scenario: fragment `0` whose children
are the empty-data comment `1` followed by the element `2`. -/
def exDocPlaceholder : Doc :=
  { nextId := 5
    ty := fun m => if m = 1 then .comment else .element
    dat := fun _ => ""
    par := fun m => if m = 1 ∨ m = 2 then some 0 else none
    kids := fun m => if m = 0 then [1, 2] else [] }

/-- C5 witness: on the concrete fragment the leading empty comment is
skipped in favour of its next sibling. -/
theorem first_child_fragment_placeholder_skip_witness :
    (first_child 0 false ⟨exDocPlaceholder, false, none⟩).1 = some 2 :=
  (first_child_fragment_placeholder_skip exDocPlaceholder none 0 1 [2] false
    (by decide) (by decide)).1 (by decide)

end SvelteDom
